import Mathlib

/-!
Shallow embedding of `src/main.py` (webcomandato/categoria): a FastAPI
service that fetches an Atom product feed, classifies each product by
keyword rules on its title, and serves list/search/index/category queries.

The embedding models:
* `categorize_product` (main.py lines 43-95) — pure keyword classifier;
* `fetch_products` (lines 98-148) — retry loop, XML-to-dict decoding and
  product construction, with the network and `xmltodict.parse` abstracted
  as an oracle `Nat → AttemptOutcome` giving each attempt's outcome;
* the query endpoints `get_all_products`, `search_products`,
  `get_product_by_index`, `get_products_by_category` (lines 166-257).
-/

namespace Categoria

/-- Python `str.lower` on a single character, restricted to the ASCII
letters and the Latin accented letters that occur in this application's
keyword table and data (the source calls `title.lower()` on feed titles). -/
def pyLowerChar (c : Char) : Char :=
  if 'A' ≤ c && c ≤ 'Z' then Char.ofNat (c.toNat + 32)
  else if c = 'Á' then 'á'
  else if c = 'É' then 'é'
  else if c = 'Í' then 'í'
  else if c = 'Ó' then 'ó'
  else if c = 'Ú' then 'ú'
  else if c = 'Ü' then 'ü'
  else if c = 'Ñ' then 'ñ'
  else c

/-- Python `s.lower()`, as a list of characters. -/
def lowerChars (s : String) : List Char :=
  s.data.map pyLowerChar

/-- Python substring containment `needle in hay` on character lists
(the empty needle occurs in every string, as in Python). -/
def hasSubstr : List Char → List Char → Bool
  | [], needle => needle.isEmpty
  | c :: rest, needle => needle.isPrefixOf (c :: rest) || hasSubstr rest needle

/-- Python `keyword in title_lower` where `keyword` is a string literal
and `title_lower` is an already-lowered character list. -/
def strIn (needle : String) (hay : List Char) : Bool :=
  hasSubstr hay needle.data

/-- Body of `categorize_product` after `title_lower = title.lower()`
(main.py lines 46-95): the ordered if/elif keyword chain.  Each condition
is `any(keyword in title_lower for keyword in [...])`; the stove rule
additionally requires `"microonda" not in title_lower`. -/
def categorize_lower (tl : List Char) : String :=
  if ["televisor", "led", "smart tv", "uhd", "4k", "nanocell"].any (fun k => strIn k tl) then
    "Televisores"
  else if ["parlante", "torre de sonido", "barra de sonido", "minicomponente", "sound bar"].any (fun k => strIn k tl) then
    "Parlantes"
  else if ["celular", "iphone", "smartphone", "honor", "infinix", "tecno"].any (fun k => strIn k tl) then
    "Celulares"
  else if ["laptop", "portátil", "notebook", "core i", "ryzen"].any (fun k => strIn k tl) then
    "Laptops"
  else if ["impresora", "multifunción", "epson", "canon", "brother"].any (fun k => strIn k tl) then
    "Impresoras"
  else if (["cocina a gas", "cocina", "hornilla", "quemador", "indurama", "mabe"].any (fun k => strIn k tl)) && !(strIn "microonda" tl) then
    "Cocina a gas"
  else if ["refrigeradora", "side by side", "top freezer"].any (fun k => strIn k tl) then
    "Refrigeradoras"
  else if ["frigobar"].any (fun k => strIn k tl) then
    "Frigobares"
  else if ["congelador", "horizontal"].any (fun k => strIn k tl) then
    "Congeladores"
  else if ["vitrina"].any (fun k => strIn k tl) then
    "Vitrinas"
  else if ["lavadora", "automática", "semiautomática"].any (fun k => strIn k tl) then
    "Lavadoras"
  else if ["secadora"].any (fun k => strIn k tl) then
    "Secadoras"
  else if ["torre de lavado"].any (fun k => strIn k tl) then
    "Torres de lavado"
  else if ["aire acondicionado", "split", "btu"].any (fun k => strIn k tl) then
    "Aire Acondicionado Split"
  else if ["cafetera", "máquina de café"].any (fun k => strIn k tl) then
    "Cafeteras"
  else if ["canguilera"].any (fun k => strIn k tl) then
    "Canguileras"
  else if ["microonda", "microondas"].any (fun k => strIn k tl) then
    "Horno Microondas"
  else if ["freidora", "airfryer"].any (fun k => strIn k tl) then
    "Freidoras"
  else if ["licuadora"].any (fun k => strIn k tl) then
    "Licuadoras"
  else if ["olla", "arrocera"].any (fun k => strIn k tl) then
    "Ollas"
  else if ["exprimidor", "extractor de jugo"].any (fun k => strIn k tl) then
    "Exprimidores"
  else if ["sanduchera", "grill"].any (fun k => strIn k tl) then
    "Sanducheras"
  else if ["plancha"].any (fun k => strIn k tl) then
    "Planchas"
  else if ["hervidor", "eléctrico"].any (fun k => strIn k tl) then
    "Hervidores"
  else
    "Otros"

/-- `categorize_product(title)` from main.py lines 43-95: lower-case the
title, then run the ordered keyword rule chain. -/
def categorize_product (title : String) : String :=
  categorize_lower (lowerChars title)

/-- The closed set of labels `categorize_product` can return
(spec section 4.1: 24 keyword rules plus the fallback). -/
def categoryLabels : List String :=
  ["Televisores", "Parlantes", "Celulares", "Laptops", "Impresoras",
   "Cocina a gas", "Refrigeradoras", "Frigobares", "Congeladores",
   "Vitrinas", "Lavadoras", "Secadoras", "Torres de lavado",
   "Aire Acondicionado Split", "Cafeteras", "Canguileras",
   "Horno Microondas", "Freidoras", "Licuadoras", "Ollas",
   "Exprimidores", "Sanducheras", "Planchas", "Hervidores", "Otros"]

/-- A rule of the spec's ordered rule table (section 4.1): trigger
keywords, keywords that must be absent (the stove rule's
`AND NOT "microonda"`; empty for all other rules), and the label.
This type and the table below follow the SPEC's wording, for comparison
with `categorize_product`, which is translated from the source. -/
structure Rule where
  keywords : List String
  excluded : List String
  label : String

/-- The spec's ordered rule table, section 4.1 rows 1-24 (row 25 is the
fallback handled by `specFirstMatch`). -/
def specRuleTable : List Rule :=
  [⟨["televisor", "led", "smart tv", "uhd", "4k", "nanocell"], [], "Televisores"⟩,
   ⟨["parlante", "torre de sonido", "barra de sonido", "minicomponente", "sound bar"], [], "Parlantes"⟩,
   ⟨["celular", "iphone", "smartphone", "honor", "infinix", "tecno"], [], "Celulares"⟩,
   ⟨["laptop", "portátil", "notebook", "core i", "ryzen"], [], "Laptops"⟩,
   ⟨["impresora", "multifunción", "epson", "canon", "brother"], [], "Impresoras"⟩,
   ⟨["cocina a gas", "cocina", "hornilla", "quemador", "indurama", "mabe"], ["microonda"], "Cocina a gas"⟩,
   ⟨["refrigeradora", "side by side", "top freezer"], [], "Refrigeradoras"⟩,
   ⟨["frigobar"], [], "Frigobares"⟩,
   ⟨["congelador", "horizontal"], [], "Congeladores"⟩,
   ⟨["vitrina"], [], "Vitrinas"⟩,
   ⟨["lavadora", "automática", "semiautomática"], [], "Lavadoras"⟩,
   ⟨["secadora"], [], "Secadoras"⟩,
   ⟨["torre de lavado"], [], "Torres de lavado"⟩,
   ⟨["aire acondicionado", "split", "btu"], [], "Aire Acondicionado Split"⟩,
   ⟨["cafetera", "máquina de café"], [], "Cafeteras"⟩,
   ⟨["canguilera"], [], "Canguileras"⟩,
   ⟨["microonda", "microondas"], [], "Horno Microondas"⟩,
   ⟨["freidora", "airfryer"], [], "Freidoras"⟩,
   ⟨["licuadora"], [], "Licuadoras"⟩,
   ⟨["olla", "arrocera"], [], "Ollas"⟩,
   ⟨["exprimidor", "extractor de jugo"], [], "Exprimidores"⟩,
   ⟨["sanduchera", "grill"], [], "Sanducheras"⟩,
   ⟨["plancha"], [], "Planchas"⟩,
   ⟨["hervidor", "eléctrico"], [], "Hervidores"⟩]

/-- A rule fires on a lowered title when some trigger keyword occurs as a
substring and no excluded keyword does (spec section 4.1). -/
def ruleMatches (tl : List Char) (r : Rule) : Bool :=
  (r.keywords.any fun k => strIn k tl) && (r.excluded.all fun k => !(strIn k tl))

/-- First-match-wins evaluation of the spec's rule table; falls back to
"Otros" when no rule fires (spec section 4.1 row 25). -/
def specFirstMatch (tl : List Char) : List Rule → String
  | [] => "Otros"
  | r :: rs => if ruleMatches tl r then r.label else specFirstMatch tl rs

/-- The classifier as the spec describes it: lower-case, then first
matching rule of the ordered table. -/
def specClassify (title : String) : String :=
  specFirstMatch (lowerChars title) specRuleTable

/-- Python values as produced by `xmltodict.parse` on the feed: an XML
element becomes `None` (empty element), a string (text-only element),
a dict (element with children/attributes), or a list (repeated sibling
elements). -/
inductive PyVal where
  | pyNone
  | pyStr (s : String)
  | pyDict (kvs : List (String × PyVal))
  | pyList (xs : List PyVal)

/-- Whether a `PyVal` is a Python list (`isinstance(v, list)`). -/
def PyVal.isList : PyVal → Bool
  | .pyList _ => true
  | _ => false

/-- Python `d.get(k, default)` on a value known to be a dict. -/
def pyDictGet (kvs : List (String × PyVal)) (k : String) (d : PyVal) : PyVal :=
  match kvs.lookup k with
  | some v => v
  | none => d

/-- Python `v.get(k, default)` on an arbitrary value: an `AttributeError`
(modelled as `Except.error`) when `v` is not a dict. -/
def pyGet (v : PyVal) (k : String) (d : PyVal) : Except Unit PyVal :=
  match v with
  | .pyDict kvs => .ok (pyDictGet kvs k d)
  | _ => .error ()

/-- main.py lines 116-118: `if not isinstance(entries, list): entries = [entries]`. -/
def toEntryList : PyVal → List PyVal
  | .pyList xs => xs
  | v => [v]

/-- The `Product` pydantic model (main.py lines 17-21).  `summary` and
`category` are `Optional[str]` (may be `None`); `title` and `link` are
`str`. -/
structure Product where
  title : String
  summary : Option String
  link : String
  category : Option String
deriving DecidableEq, Repr

/-- Body of the per-entry loop of `fetch_products` (main.py lines
120-132): extract `title`, `summary`, `link` (dict `link` is replaced by
its `@href`), classify the title, and construct the `Product`.  An
`Except.error` models a Python exception on that entry: `entry.get` on a
non-dict entry, `title.lower()` on a non-string title, or pydantic
validation rejecting a non-string `link` / non-optional-string `summary`.
All such exceptions reach the same generic handler (lines 146-148). -/
def decodeEntry (entry : PyVal) : Except Unit Product :=
  match entry with
  | .pyDict kvs =>
    let title := pyDictGet kvs "title" (.pyStr "")
    let summary := pyDictGet kvs "summary" (.pyStr "")
    let link0 := pyDictGet kvs "link" (.pyStr "")
    let link :=
      match link0 with
      | .pyDict ld => pyDictGet ld "@href" (.pyStr "")
      | v => v
    match title with
    | .pyStr ts =>
      match summary, link with
      | .pyStr ss, .pyStr ls => .ok ⟨ts, some ss, ls, some (categorize_product ts)⟩
      | .pyNone, .pyStr ls => .ok ⟨ts, none, ls, some (categorize_product ts)⟩
      | _, _ => .error ()
    | _ => .error ()
  | _ => .error ()

/-- The entry loop of main.py lines 120-132: decode entries in order,
aborting at the first entry that raises. -/
def decodeEntries : List PyVal → Except Unit (List Product)
  | [] => .ok []
  | e :: es =>
    match decodeEntry e with
    | .error u => .error u
    | .ok p =>
      match decodeEntries es with
      | .error u => .error u
      | .ok ps => .ok (p :: ps)

/-- main.py lines 113-134 applied to the parsed document `data`:
`entries = data.get('feed', {}).get('entry', [])`, list normalization,
then the entry loop. -/
def decodeDoc (data : List (String × PyVal)) : Except Unit (List Product) :=
  match pyGet (pyDictGet data "feed" (.pyDict [])) "entry" (.pyList []) with
  | .error u => .error u
  | .ok entries0 => decodeEntries (toEntryList entries0)

/-- Outcome of `xmltodict.parse(response.text)`: either the parse raises
(`malformed` raw text) or it returns the top-level dict. -/
inductive Body where
  | malformed
  | parsed (data : List (String × PyVal))

/-- main.py lines 111-134 on a fetched body: parse (an exception when
malformed) then decode the document. -/
def decodeBody : Body → Except Unit (List Product)
  | .malformed => .error ()
  | .parsed d => decodeDoc d

/-- Outcome of a single HTTP attempt inside `fetch_products`:
`readTimeout` is `httpx.ReadTimeout` (the only retried failure);
`httpError` is any other `httpx.HTTPError`, including the
`HTTPStatusError` from `response.raise_for_status()` on a non-2xx status;
`success` carries the response body handed to `xmltodict.parse`. -/
inductive AttemptOutcome where
  | readTimeout
  | httpError
  | success (body : Body)

/-- The HTTPException raised by `fetch_products`: status 504 (timeout
budget exhausted, line 140), 503 (transport failure, line 145), or 500
(the generic `except Exception` handler, line 148, which covers both
decode failures and anything else). -/
inductive FetchErr where
  | e504
  | e503
  | e500
deriving DecidableEq, Repr

/-- Status code carried by the HTTPException of a `FetchErr`. -/
def statusOf : FetchErr → Nat
  | .e504 => 504
  | .e503 => 503
  | .e500 => 500

/-- Result of `fetch_products`: a product list, a raised HTTPException,
or `stuck` — a fuel-exhaustion artifact of the embedding that is
unreachable from `fetch_products` because the while-loop body runs at
most `max_retries = 3` times. -/
inductive FetchResult where
  | ok (products : List Product)
  | err (e : FetchErr)
  | stuck
deriving DecidableEq, Repr

/-- The while-loop of `fetch_products` (main.py lines 103-148).
`outcome n` is the result of the `n`-th HTTP attempt (0-based).  State:
`fuel` bounds the remaining iterations (3 suffices), `rc` is
`retry_count`, `att` counts attempts made so far, `slp` accumulates the
`asyncio.sleep` durations in seconds.  On `ReadTimeout`:
`retry_count += 1`; raise 504 when `retry_count >= max_retries`,
otherwise sleep `2 * retry_count` and loop.  On any other `HTTPError`:
raise 503.  On success: decode; a decode exception reaches the generic
handler and raises 500. -/
def fetchAux (outcome : Nat → AttemptOutcome) :
    Nat → Nat → Nat → List Nat → FetchResult × Nat × List Nat
  | 0, _, att, slp => (.stuck, att, slp)
  | fuel + 1, rc, att, slp =>
    if rc < 3 then
      match outcome att with
      | .readTimeout =>
        if 3 ≤ rc + 1 then (.err .e504, att + 1, slp)
        else fetchAux outcome fuel (rc + 1) (att + 1) (slp ++ [2 * (rc + 1)])
      | .httpError => (.err .e503, att + 1, slp)
      | .success b =>
        match decodeBody b with
        | .ok ps => (.ok ps, att + 1, slp)
        | .error _ => (.err .e500, att + 1, slp)
    else (.stuck, att, slp)

/-- `fetch_products` (main.py lines 98-148): the retry loop entered with
`retry_count = 0`, returning the result together with the number of
attempts performed and the list of backoff sleeps. -/
def fetch_products (outcome : Nat → AttemptOutcome) :
    FetchResult × Nat × List Nat :=
  fetchAux outcome 3 0 0 []

/-- Result of a query endpoint as seen by the web framework: a value, a
raised `HTTPException` with a status code, the generic 503 `JSONResponse`
("Servicio temporalmente no disponible..."), or the unreachable
fuel artifact propagated from `FetchResult.stuck`. -/
inductive QueryResult (α : Type) where
  | ok (a : α)
  | raised (status : Nat)
  | generic503
  | modelStuck
deriving DecidableEq, Repr

/-- `get_all_products` (main.py lines 166-177): return the fetched
products; `except Exception` (which includes the fetcher's
`HTTPException`) returns the generic 503 `JSONResponse`. -/
def get_all_products (o : Nat → AttemptOutcome) : QueryResult (List Product) :=
  match (fetch_products o).1 with
  | .ok ps => .ok ps
  | .err _ => .generic503
  | .stuck => .modelStuck

/-- Python `term.lower() in s.lower()`. -/
def lowerIn (term s : String) : Bool :=
  hasSubstr (lowerChars s) (lowerChars term)

/-- One evaluation of the search comprehension's condition (main.py
lines 189-191): `term.lower() in product.title.lower() or term.lower()
in product.summary.lower()`.  Python's `or` short-circuits, so a `None`
summary only raises (`Except.error`) when the title does not match. -/
def searchTest (term : String) (p : Product) : Except Unit Bool :=
  if lowerIn term p.title then .ok true
  else
    match p.summary with
    | some s => .ok (lowerIn term s)
    | none => .error ()

/-- The search list comprehension: keep products passing `searchTest`,
aborting at the first product whose test raises. -/
def searchFilter (term : String) : List Product → Except Unit (List Product)
  | [] => .ok []
  | p :: ps =>
    match searchTest term p with
    | .error u => .error u
    | .ok b =>
      match searchFilter term ps with
      | .error u => .error u
      | .ok r => .ok (if b then p :: r else r)

/-- `search_products` (main.py lines 180-196): fetch, then the
comprehension; any exception (fetcher `HTTPException` or a raising
comprehension) yields the generic 503 `JSONResponse`. -/
def search_products (o : Nat → AttemptOutcome) (term : String) :
    QueryResult (List Product) :=
  match (fetch_products o).1 with
  | .ok ps =>
    match searchFilter term ps with
    | .ok r => .ok r
    | .error _ => .generic503
  | .err _ => .generic503
  | .stuck => .modelStuck

/-- Placeholder product for `List.getD`; never selected in bounds. -/
def dummyProduct : Product :=
  ⟨"", none, "", none⟩

/-- `get_product_by_index` (main.py lines 199-217): fetch; return
`products[index]` when `0 <= index < len(products)`, otherwise raise
404; `except HTTPException: raise e` re-raises both the 404 and any
fetcher `HTTPException` unchanged. -/
def get_product_by_index (o : Nat → AttemptOutcome) (index : Int) :
    QueryResult Product :=
  match (fetch_products o).1 with
  | .ok ps =>
    if 0 ≤ index ∧ index < (ps.length : Int) then .ok (ps.getD index.toNat dummyProduct)
    else .raised 404
  | .err e => .raised (statusOf e)
  | .stuck => .modelStuck

/-- The category comprehension's condition (main.py line 245):
`product.category.lower() == category_name.lower()`; raises
(`Except.error`) when `category` is `None`. -/
def catFilter (name : String) : List Product → Except Unit (List Product)
  | [] => .ok []
  | p :: ps =>
    match p.category with
    | none => .error ()
    | some c =>
      match catFilter name ps with
      | .error u => .error u
      | .ok r => .ok (if lowerChars c == lowerChars name then p :: r else r)

/-- `get_products_by_category` (main.py lines 236-257): fetch, filter by
case-insensitive category equality, raise 404 when the filtered list is
empty; `except HTTPException: raise e` re-raises the 404 and fetcher
`HTTPException`s unchanged, while any other exception yields the generic
503 `JSONResponse`. -/
def get_products_by_category (o : Nat → AttemptOutcome) (name : String) :
    QueryResult (List Product) :=
  match (fetch_products o).1 with
  | .ok ps =>
    match catFilter name ps with
    | .ok cps => if cps.isEmpty then .raised 404 else .ok cps
    | .error _ => .generic503
  | .err e => .raised (statusOf e)
  | .stuck => .modelStuck

/-- The search comprehension's condition as a pure Boolean, meaningful
for products whose summary is non-null or whose title already matches:
used to state what `search_products` returns when it does not raise. -/
def searchB (term : String) (p : Product) : Bool :=
  lowerIn term p.title ||
    (match p.summary with
     | some s => lowerIn term s
     | none => false)

/-- The category filter as a pure Boolean (meaningful when `category`
is non-null, which holds for every fetched product). -/
def catB (name : String) (p : Product) : Bool :=
  match p.category with
  | some c => lowerChars c == lowerChars name
  | none => false

/-- Concrete feed entry used by several witnesses. -/
def wEntry : PyVal :=
  .pyDict [("title", .pyStr "Laptop HP"), ("summary", .pyStr "una laptop"), ("link", .pyStr "l")]

/-- Concrete well-formed one-entry feed body. -/
def wBody : Body := .parsed [("feed", .pyDict [("entry", wEntry)])]

/-- The product `wBody` decodes to. -/
def wProd : Product := ⟨"Laptop HP", some "una laptop", "l", some "Laptops"⟩

/-- Attempt oracle that succeeds immediately with `wBody`. -/
def wOutcome : Nat → AttemptOutcome := fun _ => .success wBody

/-- Feed body whose single entry has a present-but-empty `summary`
element, which `xmltodict` renders as `None`. -/
def wNoneBody : Body :=
  .parsed [("feed", .pyDict [("entry", .pyDict [("title", .pyStr "x"), ("summary", .pyNone), ("link", .pyStr "l")])])]

/-!
Helper lemmas, then one theorem per claim (with witnesses and
counterexamples where applicable).
-/

/-- The source's if/elif chain computes exactly the spec's
first-match-wins rule table on any lowered title. -/
lemma categorize_eq_spec (tl : List Char) :
    categorize_lower tl = specFirstMatch tl specRuleTable := by
  simp only [categorize_lower, specFirstMatch, specRuleTable, ruleMatches,
    List.all_cons, List.all_nil, Bool.and_true]

/-- First-match evaluation only ever returns a rule label or the
fallback. -/
lemma specFirstMatch_mem (tl : List Char) :
    ∀ rs : List Rule, specFirstMatch tl rs ∈ rs.map Rule.label ++ ["Otros"] := by
  intro rs
  induction rs with
  | nil => simp [specFirstMatch]
  | cons r rs ih =>
    simp only [specFirstMatch]
    split
    · simp
    · simp only [List.map_cons, List.cons_append, List.mem_cons]
      exact Or.inr ih

/-- Every classifier output is one of the 25 labels. -/
lemma categorize_mem_labels (t : String) :
    categorize_product t ∈ categoryLabels := by
  have h := specFirstMatch_mem (lowerChars t) specRuleTable
  rw [categorize_product, categorize_eq_spec]
  simpa [specRuleTable, categoryLabels] using h

/-- A successfully decoded entry carries the category computed from its
own title. -/
lemma decodeEntry_category (e : PyVal) (p : Product)
    (h : decodeEntry e = .ok p) :
    p.category = some (categorize_product p.title) := by
  cases e with
  | pyDict kvs =>
    simp only [decodeEntry] at h
    split at h
    · split at h
      all_goals first
        | (injection h with h; subst h; rfl)
        | exact absurd h (by simp)
    · exact absurd h (by simp)
  | pyNone => exact absurd h (by simp [decodeEntry])
  | pyStr s => exact absurd h (by simp [decodeEntry])
  | pyList xs => exact absurd h (by simp [decodeEntry])

/-- Category invariant lifted through the entry loop. -/
lemma decodeEntries_category :
    ∀ es ps, decodeEntries es = .ok ps →
      ∀ p ∈ ps, p.category = some (categorize_product p.title) := by
  intro es
  induction es with
  | nil =>
    intro ps h p hp
    simp only [decodeEntries] at h
    injection h with h
    subst h
    simp at hp
  | cons e es ih =>
    intro ps h p hp
    simp only [decodeEntries] at h
    split at h
    · exact absurd h (by simp)
    case _ p0 he =>
      split at h
      · exact absurd h (by simp)
      case _ ps0 hes =>
        injection h with h
        subst h
        rcases List.mem_cons.mp hp with rfl | hp'
        · exact decodeEntry_category e p he
        · exact ih ps0 hes p hp'

/-- Category invariant lifted through body decoding. -/
lemma decodeBody_category (b : Body) (ps : List Product)
    (h : decodeBody b = .ok ps) :
    ∀ p ∈ ps, p.category = some (categorize_product p.title) := by
  cases b with
  | malformed => exact absurd h (by simp [decodeBody])
  | parsed d =>
    simp only [decodeBody, decodeDoc] at h
    split at h
    · exact absurd h (by simp)
    case _ entries0 _ =>
      exact decodeEntries_category _ _ h

/-- A successful fetch result comes from a successful body decode. -/
lemma fetchAux_ok_decode (o : Nat → AttemptOutcome) :
    ∀ fuel rc att slp ps,
      (fetchAux o fuel rc att slp).1 = .ok ps →
      ∃ b, decodeBody b = .ok ps := by
  intro fuel
  induction fuel with
  | zero =>
    intro rc att slp ps h
    simp [fetchAux] at h
  | succ fuel ih =>
    intro rc att slp ps h
    simp only [fetchAux] at h
    split at h
    · split at h
      · split at h
        · simp at h
        · exact ih _ _ _ _ h
      · simp at h
      case _ b heq =>
        split at h
        case _ qs hq =>
          simp only [FetchResult.ok.injEq] at h
          exact ⟨b, h ▸ hq⟩
        · simp at h
    · simp at h

/-- Every product of a successful fetch carries the category of its own
title. -/
lemma fetch_ok_category (o : Nat → AttemptOutcome) (ps : List Product)
    (h : (fetch_products o).1 = .ok ps) :
    ∀ p ∈ ps, p.category = some (categorize_product p.title) := by
  obtain ⟨b, hb⟩ := fetchAux_ok_decode o 3 0 0 [] ps h
  exact decodeBody_category b ps hb

/-- The empty needle occurs in every haystack, as in Python. -/
lemma hasSubstr_nil (l : List Char) : hasSubstr l [] = true := by
  cases l <;> simp [hasSubstr, List.isPrefixOf, List.isEmpty]

/-- The empty search term matches every string. -/
lemma lowerIn_empty (s : String) : lowerIn "" s = true := by
  have h : lowerChars "" = [] := rfl
  rw [lowerIn, h, hasSubstr_nil]

/-- When every category is non-null the category comprehension does not
raise and computes an ordinary filter. -/
lemma catFilter_ok (name : String) :
    ∀ ps : List Product, (∀ p ∈ ps, p.category ≠ none) →
      catFilter name ps = .ok (ps.filter (catB name)) := by
  intro ps
  induction ps with
  | nil => intro _; rfl
  | cons p ps ih =>
    intro hall
    have hp : p.category ≠ none := hall p (by simp)
    simp only [catFilter]
    cases hcat : p.category with
    | none => exact absurd hcat hp
    | some c =>
      rw [ih (fun q hq => hall q (by simp [hq]))]
      simp [List.filter_cons, catB, hcat]

/-- When every product matches by title or has a non-null summary the
search comprehension does not raise and computes an ordinary filter. -/
lemma searchFilter_ok (term : String) :
    ∀ ps : List Product,
      (∀ p ∈ ps, lowerIn term p.title = true ∨ p.summary ≠ none) →
      searchFilter term ps = .ok (ps.filter (searchB term)) := by
  intro ps
  induction ps with
  | nil => intro _; rfl
  | cons p ps ih =>
    intro hall
    simp only [searchFilter]
    have hrest := ih (fun q hq => hall q (by simp [hq]))
    rcases hall p (by simp) with ht | hs
    · simp only [searchTest, ht, if_pos rfl]
      rw [hrest]
      simp [List.filter_cons, searchB, ht]
    · cases hsum : p.summary with
      | none => exact absurd hsum hs
      | some str =>
        by_cases ht : lowerIn term p.title
        · simp only [searchTest, ht, if_pos rfl]
          rw [hrest]
          simp [List.filter_cons, searchB, ht]
        · simp only [searchTest, ht, hsum]
          rw [hrest]
          simp only [Bool.false_eq_true, if_false]
          simp [List.filter_cons, searchB, ht, hsum]

/-- C1: the classifier lower-cases the title and evaluates the 25-row
ordered rule table (`specRuleTable` plus the "Otros" fallback) in the
spec's order, first match wins, with the stove rule's additional
requirement that "microonda" be absent; `classify("Cocina a gas
Indurama")` is the stove label and `classify("Microonda con función de
cocina")` is the microwave label. -/
theorem c1_classifier_matches_spec_table :
    (∀ title : String, categorize_product title = specClassify title) ∧
    categorize_product "Cocina a gas Indurama" = "Cocina a gas" ∧
    categorize_product "Microonda con función de cocina" = "Horno Microondas" := by
  refine ⟨fun t => ?_, by decide, by decide⟩
  exact categorize_eq_spec (lowerChars t)

/-- C2 (amended): malformed raw text fails with the catch-all 500
decode error, but a document whose feed/entry root path is entirely
absent — or whose feed dict has no entry key — decodes to the empty
product sequence rather than an error. -/
theorem c2_decode_errors (d : List (String × PyVal)) :
    decodeBody .malformed = .error () ∧
    fetch_products (fun _ => .success .malformed) = (.err .e500, 1, []) ∧
    (d.lookup "feed" = none → decodeDoc d = .ok []) ∧
    (∀ kvs, d.lookup "feed" = some (.pyDict kvs) → kvs.lookup "entry" = none →
       decodeDoc d = .ok []) := by
  refine ⟨rfl, rfl, fun hf => ?_, fun kvs hf he => ?_⟩
  · have h1 : pyDictGet d "feed" (.pyDict []) = .pyDict [] := by
      simp [pyDictGet, hf]
    unfold decodeDoc
    rw [h1]
    rfl
  · have h1 : pyDictGet d "feed" (.pyDict []) = .pyDict kvs := by
      simp [pyDictGet, hf]
    have h2 : pyGet (.pyDict kvs) "entry" (.pyList []) = .ok (.pyList []) := by
      simp [pyGet, pyDictGet, he]
    unfold decodeDoc
    rw [h1, h2]
    rfl

/-- Witness for C2: a document without a feed key, and one whose feed
has no entry key, both decode to the empty sequence. -/
theorem c2_decode_errors_witness :
    decodeDoc [("html", PyVal.pyNone)] = .ok [] ∧
    decodeDoc [("feed", PyVal.pyDict [("title", PyVal.pyStr "t")])] = .ok [] :=
  ⟨(c2_decode_errors _).2.2.1 rfl, (c2_decode_errors _).2.2.2 _ rfl rfl⟩

/-- Counterexample for C2 as stated: a well-formed document whose
feed/entry root path is entirely absent makes `fetch_products` succeed
with the empty list instead of failing with any decode error. -/
theorem c2_counterexample :
    fetch_products (fun _ => .success (.parsed [("html", .pyNone)])) = (.ok [], 1, []) ∧
    (fetch_products (fun _ => .success (.parsed [("html", .pyNone)]))).1 ≠ .err .e500 ∧
    (fetch_products (fun _ => .success (.parsed [("html", .pyNone)]))).1 ≠ .err .e503 ∧
    (fetch_products (fun _ => .success (.parsed [("html", .pyNone)]))).1 ≠ .err .e504 :=
  ⟨rfl, by decide, by decide, by decide⟩

/-- C3: when every attempt fails with the timeout-class failure
(`httpx.ReadTimeout`), exactly 3 attempts occur, the backoff sleeps are
2 then 4 seconds, and the run fails with the 504 timeout error. -/
theorem c3_timeout_three_attempts (o : Nat → AttemptOutcome)
    (h : ∀ n, o n = .readTimeout) :
    fetch_products o = (.err .e504, 3, [2, 4]) := by
  simp [fetch_products, fetchAux, h]

/-- Witness for C3 at the constant-timeout oracle. -/
theorem c3_timeout_three_attempts_witness :
    fetch_products (fun _ => AttemptOutcome.readTimeout) = (.err .e504, 3, [2, 4]) :=
  c3_timeout_three_attempts (fun _ => .readTimeout) (fun _ => rfl)

/-- C4: a non-timeout transport failure at attempt `k` (after `k`
timeouts) fails immediately with the 503 transport error after exactly
`k + 1` attempts — no retry for transport failures. -/
theorem c4_transport_fails_fast (o : Nat → AttemptOutcome) (k : Nat) (hk : k < 3)
    (ht : ∀ i, i < k → o i = .readTimeout) (he : o k = .httpError) :
    fetch_products o = (.err .e503, k + 1, (List.range k).map fun j => 2 * (j + 1)) := by
  interval_cases k
  · simp [fetch_products, fetchAux, he]
  · have h0 := ht 0 (by norm_num)
    simp [fetch_products, fetchAux, h0, he]
    all_goals decide
  · have h0 := ht 0 (by norm_num)
    have h1 := ht 1 (by norm_num)
    simp [fetch_products, fetchAux, h0, h1, he]
    all_goals decide

/-- Witness for C4: one timeout then a transport failure gives the 503
error after exactly two attempts with a single 2-second sleep. -/
theorem c4_transport_fails_fast_witness :
    fetch_products (fun n => if n = 0 then AttemptOutcome.readTimeout else .httpError) =
      (.err .e503, 2, [2]) := by
  have h := c4_transport_fails_fast
    (fun n => if n = 0 then AttemptOutcome.readTimeout else .httpError) 1
    (by norm_num) (fun i hi => by interval_cases i; rfl) rfl
  simpa using h

/-- C5: every product of a successful fetch has
`category = classify(title)`, hence a non-null category drawn from the
fixed 25-label set, and identically titled products get identical
categories. -/
theorem c5_category_invariant (o : Nat → AttemptOutcome) (ps : List Product)
    (h : (fetch_products o).1 = .ok ps) :
    (∀ p ∈ ps, p.category = some (categorize_product p.title) ∧
       p.category ≠ none ∧ categorize_product p.title ∈ categoryLabels) ∧
    (∀ p ∈ ps, ∀ q ∈ ps, p.title = q.title → p.category = q.category) := by
  have hc := fetch_ok_category o ps h
  refine ⟨fun p hp => ⟨hc p hp, ?_, categorize_mem_labels _⟩, fun p hp q hq hpq => ?_⟩
  · rw [hc p hp]
    simp
  · rw [hc p hp, hc q hq, hpq]

/-- Witness for C5 at a concrete fetched product. -/
theorem c5_category_invariant_witness :
    wProd.category = some (categorize_product wProd.title) ∧
    wProd.category ≠ none ∧ categorize_product wProd.title ∈ categoryLabels :=
  (c5_category_invariant wOutcome [wProd] rfl).1 wProd (List.mem_singleton.mpr rfl)

/-- C6: on a fetched collection, `byIndex i` raises 404 exactly when
`i` is outside `[0, length)`, returns the product at position `i`
when in bounds, and succeeds at index 0 on any non-empty collection. -/
theorem c6_by_index (o : Nat → AttemptOutcome) (ps : List Product) (i : Int)
    (h : (fetch_products o).1 = .ok ps) :
    (get_product_by_index o i = .raised 404 ↔ ¬ (0 ≤ i ∧ i < (ps.length : Int))) ∧
    ((0 ≤ i ∧ i < (ps.length : Int)) →
       get_product_by_index o i = .ok (ps.getD i.toNat dummyProduct)) ∧
    (ps ≠ [] → get_product_by_index o 0 = .ok (ps.getD 0 dummyProduct)) := by
  unfold get_product_by_index
  rw [h]
  refine ⟨?_, fun hin => by simp [hin], fun hne => ?_⟩
  · by_cases hin : 0 ≤ i ∧ i < (ps.length : Int)
    · simp [hin]
    · simp [hin]
  · have hlen : (0 : Int) < ps.length := by
      simpa using List.length_pos.mpr hne
    simp [hlen]

/-- Witness for C6: index 0 of a one-product collection succeeds. -/
theorem c6_by_index_witness :
    get_product_by_index wOutcome 0 = .ok wProd := by
  have h := (c6_by_index wOutcome [wProd] 0 rfl).2.2 (by simp)
  simpa using h

/-- C7: on a fetched collection, `byCategory name` returns exactly the
products whose category equals `name` case-insensitively, and raises
404 exactly when that set is empty. -/
theorem c7_by_category (o : Nat → AttemptOutcome) (ps : List Product)
    (name : String) (h : (fetch_products o).1 = .ok ps) :
    get_products_by_category o name =
      (if (ps.filter (catB name)).isEmpty then .raised 404
       else .ok (ps.filter (catB name))) ∧
    (∀ p ∈ ps, catB name p = true ↔
       ∃ c, p.category = some c ∧ lowerChars c = lowerChars name) := by
  have hsome : ∀ p ∈ ps, p.category ≠ none := by
    intro p hp
    rw [fetch_ok_category o ps h p hp]
    simp
  constructor
  · unfold get_products_by_category
    simp only [h]
    rw [catFilter_ok name ps hsome]
  · intro p hp
    cases hcat : p.category with
    | none => exact absurd hcat (hsome p hp)
    | some c => simp [catB, hcat]

/-- Witness for C7: `byCategory "laptops"` finds the product
categorized "Laptops"; `byCategory "nonexistent"` raises 404. -/
theorem c7_by_category_witness :
    get_products_by_category wOutcome "laptops" = .ok [wProd] ∧
    get_products_by_category wOutcome "nonexistent" = .raised 404 := by
  constructor
  · have h := (c7_by_category wOutcome [wProd] "laptops" rfl).1
    rw [h]
    decide
  · have h := (c7_by_category wOutcome [wProd] "nonexistent" rfl).1
    rw [h]
    decide

/-- C8: decoding is invariant under the feed's shape variance — a
single-entry document decodes like the one-element-list document, and a
plain-string link decodes like the structured href-bearing link. -/
theorem c8_shape_invariance (e t su : PyVal) (s : String)
    (h : e.isList = false) :
    decodeDoc [("feed", .pyDict [("entry", e)])] =
      decodeDoc [("feed", .pyDict [("entry", .pyList [e])])] ∧
    decodeEntry (.pyDict [("title", t), ("summary", su), ("link", .pyStr s)]) =
      decodeEntry (.pyDict [("title", t), ("summary", su), ("link", .pyDict [("@href", .pyStr s)])]) := by
  constructor
  · cases e with
    | pyList xs => simp [PyVal.isList] at h
    | pyNone => rfl
    | pyStr s' => rfl
    | pyDict kvs => rfl
  · rfl

/-- Witness for C8 at a concrete entry. -/
theorem c8_shape_invariance_witness :
    decodeDoc [("feed", .pyDict [("entry", wEntry)])] =
      decodeDoc [("feed", .pyDict [("entry", .pyList [wEntry])])] :=
  (c8_shape_invariance wEntry (.pyStr "x") (.pyStr "y") "l" rfl).1

/-- C9 (amended): when the fetch fails, `byIndex` and `byCategory`
re-raise the fetcher's HTTPException unmodified, while `listAll` and
`search` replace it with the generic 503 response; no fetcher failure
ever becomes a success value. -/
theorem c9_error_handling (o : Nat → AttemptOutcome) (e : FetchErr)
    (term name : String) (i : Int) (h : (fetch_products o).1 = .err e) :
    get_product_by_index o i = .raised (statusOf e) ∧
    get_products_by_category o name = .raised (statusOf e) ∧
    get_all_products o = .generic503 ∧
    search_products o term = .generic503 ∧
    (∀ ps : List Product, get_all_products o ≠ .ok ps) ∧
    (∀ ps : List Product, search_products o term ≠ .ok ps) := by
  unfold get_product_by_index get_products_by_category get_all_products search_products
  rw [h]
  exact ⟨rfl, rfl, rfl, rfl, fun ps => by simp, fun ps => by simp⟩

/-- Witness for C9 under an exhausted-timeout fetch failure. -/
theorem c9_error_handling_witness :
    get_product_by_index (fun _ => AttemptOutcome.readTimeout) 0 = .raised 504 ∧
    get_products_by_category (fun _ => AttemptOutcome.readTimeout) "b" = .raised 504 ∧
    get_all_products (fun _ => AttemptOutcome.readTimeout) = .generic503 ∧
    search_products (fun _ => AttemptOutcome.readTimeout) "a" = .generic503 := by
  have h := c9_error_handling (fun _ => .readTimeout) .e504 "a" "b" 0 rfl
  exact ⟨h.1, h.2.1, h.2.2.1, h.2.2.2.1⟩

/-- Counterexample for C9 as stated: a 504 timeout failure from the
fetcher reaches the caller of `listAll`/`search` as the generic 503
response, not as the unmodified 504 failure. -/
theorem c9_counterexample :
    (fetch_products (fun _ => AttemptOutcome.readTimeout)).1 = .err .e504 ∧
    get_all_products (fun _ => AttemptOutcome.readTimeout) = .generic503 ∧
    search_products (fun _ => AttemptOutcome.readTimeout) "cocina" = .generic503 ∧
    (QueryResult.generic503 : QueryResult (List Product)) ≠ .raised (statusOf .e504) :=
  ⟨rfl, rfl, rfl, by decide⟩

/-- C10 (amended): on a fetched collection in which every product
matches the term by title or has a non-null summary, `search` returns
the matching products as an order-preserving sublist, and the
empty-string search always returns the whole collection, coinciding
with `listAll`. -/
theorem c10_search_order (o : Nat → AttemptOutcome) (ps : List Product)
    (term : String) (h : (fetch_products o).1 = .ok ps)
    (hs : ∀ p ∈ ps, lowerIn term p.title = true ∨ p.summary ≠ none) :
    search_products o term = .ok (ps.filter (searchB term)) ∧
    (ps.filter (searchB term)).Sublist ps ∧
    search_products o "" = .ok ps ∧
    search_products o "" = get_all_products o := by
  have h1 : search_products o term = .ok (ps.filter (searchB term)) := by
    unfold search_products
    simp only [h]
    rw [searchFilter_ok term ps hs]
  have h2 : search_products o "" = .ok ps := by
    unfold search_products
    simp only [h]
    rw [searchFilter_ok "" ps (fun p _ => Or.inl (lowerIn_empty p.title))]
    have hself : ps.filter (searchB "") = ps := by
      apply List.filter_eq_self.mpr
      intro p _
      simp [searchB, lowerIn_empty]
    rw [hself]
  refine ⟨h1, List.filter_sublist _, h2, ?_⟩
  rw [h2]
  unfold get_all_products
  rw [h]

/-- Witness for C10 on a collection with a non-null summary. -/
theorem c10_search_order_witness :
    search_products wOutcome "laptop" = .ok [wProd] ∧
    search_products wOutcome "" = .ok [wProd] := by
  have hs : ∀ p ∈ [wProd], lowerIn "laptop" p.title = true ∨ p.summary ≠ none := by
    intro p hp
    rw [List.mem_singleton.mp hp]
    exact Or.inr (by simp [wProd])
  have h := c10_search_order wOutcome [wProd] "laptop" rfl hs
  constructor
  · have h1 := h.1
    rw [show ([wProd].filter (searchB "laptop")) = [wProd] from by decide] at h1
    exact h1
  · exact h.2.2.1

/-- Counterexample for C10 as stated: a fetched collection can contain
a product with a null summary; a search term missing its title then
makes the comprehension raise, so `search` answers with the generic 503
response instead of returning the (empty) matching sublist. -/
theorem c10_counterexample :
    (fetch_products (fun _ => .success wNoneBody)).1 =
      .ok [⟨"x", none, "l", some "Otros"⟩] ∧
    ([(⟨"x", none, "l", some "Otros"⟩ : Product)].filter (searchB "y")) = [] ∧
    search_products (fun _ => .success wNoneBody) "y" = .generic503 ∧
    (QueryResult.generic503 : QueryResult (List Product)) ≠ .ok [] :=
  ⟨rfl, by decide, rfl, by decide⟩

end Categoria
